/-
Verification of the client-side supervisor of the L-language VSCode extension
(src/client/src/extension.ts): executable location, status-bar reflection,
debounced configuration-change restarts, the restart routine, the LSP error
handler, and deactivation.  The TypeScript module's mutable state and its
handlers are embedded as pure Lean functions over an explicit state record;
asynchronous awaits are modelled by outcome oracles and, where overlap is at
stake, by explicit interleaving of the effect sequences the handlers perform.
-/
import Mathlib

/-- The lifecycle states of the language client
(`State` from vscode-languageclient): `Stopped`, `Starting`, `Running`. -/
inductive LspState
  | Stopped
  | Starting
  | Running
deriving DecidableEq, Repr

/-- Printable state name, as used in the restart log line
(`State[currentState]` in the source). -/
def stateName : LspState → String
  | LspState.Stopped => "Stopped"
  | LspState.Starting => "Starting"
  | LspState.Running => "Running"

/-- The status-bar item's mutable display fields
(`statusBarItem.text`, `.tooltip`, `.color`; `none` models `undefined`). -/
structure StatusBar where
  text : String
  tooltip : String
  color : Option String
deriving DecidableEq, Repr

/-- The language-client handle created once in `activate` (line 267).  It
stores the server command resolved at activation time inside its
`serverOptions` (the `run.command` field) together with its current state. -/
structure ClientHandle where
  command : String
  state : LspState
deriving DecidableEq, Repr

/-- The module-level mutable variables of extension.ts that the claims are
about: `client` (declared without initialiser, so `Option`),
`configChangeTimer`, `isDisposing`, and the status-bar item. -/
structure ExtensionState where
  client : Option ClientHandle
  statusBarItem : StatusBar
  configChangeTimer : Option Nat
  isDisposing : Bool
deriving DecidableEq, Repr

/-- The observable side effects the handlers perform, in order:
output-channel lines, `window.showErrorMessage`, timer management,
and the client `stop()` / `start()` calls (a `startClient` effect records
the command the started session will spawn). -/
inductive Effect
  | logLine (s : String)
  | showErrorMessage (s : String)
  | clearTimeout (id : Nat)
  | setTimeout (id : Nat) (delayMs : Nat)
  | stopClient
  | startClient (command : String)
deriving DecidableEq, Repr

/-- The display the `updateStatusBar` switch writes for each state
(lines 375-391 of extension.ts). -/
def renderStatusBar : LspState → StatusBar
  | LspState.Starting =>
    { text := "$(sync~spin) L Language Server"
      tooltip := "L Language Server is starting..."
      color := none }
  | LspState.Running =>
    { text := "$(check) L Language Server"
      tooltip := "L Language Server is running"
      color := none }
  | LspState.Stopped =>
    { text := "$(x) L Language Server"
      tooltip := "L Language Server has stopped"
      color := some "statusBarItem.errorForeground" }

/-- `updateStatusBar` (lines 369-392): returns unchanged when `isDisposing`
is set, otherwise rewrites the status-bar fields for the given state. -/
def updateStatusBar (st : ExtensionState) (s : LspState) : ExtensionState :=
  if st.isDisposing then st
  else { st with statusBarItem := renderStatusBar s }

/-- The state-change event delivered by `client.onDidChangeState`: it carries
the old and the new state and nothing else. -/
structure StateChangeEvent where
  oldState : LspState
  newState : LspState
deriving DecidableEq, Repr

/-- The subscriber registered at activation (lines 278-280): it forwards the
event's `newState` to `updateStatusBar`. -/
def stateChangeSubscriber (st : ExtensionState) (e : StateChangeEvent) : ExtensionState :=
  updateStatusBar st e.newState

/-- Modelled from the spec: the spec tags every transition event with the
generation of the process instance it belongs to.  The code's event type has
no such field, so the tag is attached as a wrapper here in order to state the
generation-filtering claim; the code's subscriber is applied to the wrapped
event below. -/
structure GenTaggedEvent where
  generation : Nat
  event : StateChangeEvent
deriving DecidableEq, Repr

/-- Delivery of a generation-tagged event to the code's subscriber: the code
reads only `newState` and consults neither the event's generation nor the
current one. -/
def deliverGenTagged (st : ExtensionState) (_currentGeneration : Nat)
    (e : GenTaggedEvent) : ExtensionState :=
  stateChangeSubscriber st e.event

/- ### Executable locator (activate, lines 96-190) -/

/-- JavaScript truthiness of `process.env.SERVER_PATH`: an unset variable and
a variable set to the empty string are both falsy. -/
def envTruthy : Option String → Bool
  | none => false
  | some s => s ≠ ""

/-- The platform-dependent executable suffix appended in each candidate path
(`os.platform() === "win32" ? ".exe" : ""`). -/
def exeSuffix (isWin32 : Bool) : String :=
  if isWin32 then ".exe" else ""

/-- `path.join`, modelled as separator interleaving (the `..` normalisation
that `path.join` also performs is irrelevant to the existence oracle used
below and is abstracted away). -/
def joinPath (parts : List String) : String :=
  String.intercalate "/" parts

/-- The fixed candidate list of lines 118-159: debug and release layout,
each in-place and one directory higher, then the bare command name. -/
def possiblePaths (dirname : String) (isWin32 : Bool) : List String :=
  [ joinPath [dirname, "..", "..", "target", "debug",
      "l-language-server" ++ exeSuffix isWin32],
    joinPath [dirname, "..", "..", "target", "release",
      "l-language-server" ++ exeSuffix isWin32],
    joinPath [dirname, "..", "..", "..", "target", "debug",
      "l-language-server" ++ exeSuffix isWin32],
    joinPath [dirname, "..", "..", "..", "target", "release",
      "l-language-server" ++ exeSuffix isWin32],
    "l-language-server" ]

/-- The search loop of lines 166-177: `fs.existsSync` may throw (modelled as
`Except.error`); the loop catches, logs and moves on, and returns the first
path that reports existing. -/
def findFirstExisting (fsExists : String → Except String Bool) :
    List String → Option String
  | [] => none
  | p :: ps =>
    match fsExists p with
    | Except.ok true => some p
    | Except.ok false => findFirstExisting fsExists ps
    | Except.error _ => findFirstExisting fsExists ps

/-- `String.prototype.trim`: strip leading and trailing whitespace,
modelled over the character list. -/
def jsTrim (s : String) : String :=
  String.mk
    (((s.data.dropWhile Char.isWhitespace).reverse.dropWhile Char.isWhitespace).reverse)

/-- The selection of lines 107-186: a truthy configuration path with
non-empty trim wins; else a truthy `SERVER_PATH`; else the first existing
candidate; else the fallback name. -/
def selectServerCommand (customServerPath : String) (envServerPath : Option String)
    (fsExists : String → Except String Bool) (dirname : String) (isWin32 : Bool) :
    String :=
  if customServerPath ≠ "" ∧ jsTrim customServerPath ≠ "" then
    customServerPath
  else if envTruthy envServerPath then
    envServerPath.getD ""
  else
    (findFirstExisting fsExists (possiblePaths dirname isWin32)).getD
      "l-language-server"

/-- Line 189: `serverCommand = path.normalize(serverCommand || fallback)`;
the platform normalisation is taken as a parameter. -/
def resolveServerCommand (normalize : String → String) (customServerPath : String)
    (envServerPath : Option String) (fsExists : String → Except String Bool)
    (dirname : String) (isWin32 : Bool) : String :=
  let c := selectServerCommand customServerPath envServerPath fsExists dirname isWin32
  normalize (if c ≠ "" then c else "l-language-server")

/-- The resolution priority exactly as the specification words it: a
non-empty-after-trim explicit path wins; otherwise a *present* environment
variable wins (no emptiness proviso); otherwise the first existing candidate;
otherwise the fallback name.  Declared only to compare the spec's claimed
order with the code's selection. -/
def specOrderServerCommand (customServerPath : String) (envServerPath : Option String)
    (fsExists : String → Except String Bool) (dirname : String) (isWin32 : Bool) :
    String :=
  if jsTrim customServerPath ≠ "" then
    customServerPath
  else
    match envServerPath with
    | some v => v
    | none =>
      (findFirstExisting fsExists (possiblePaths dirname isWin32)).getD
        "l-language-server"

/- ### Error escalation (clientOptions.errorHandler, lines 242-263) -/

/-- `ErrorAction` of vscode-languageclient. -/
inductive ErrorAction
  | Continue
  | Shutdown
deriving DecidableEq, Repr

/-- `CloseAction` of vscode-languageclient. -/
inductive CloseAction
  | DoNotRestart
  | Restart
deriving DecidableEq, Repr

/-- The `error` callback (lines 244-257).  The library supplies the count of
consecutive faults; after logging (elided) the callback calls
`window.showErrorMessage` whenever `count >= 5` and always returns
`ErrorAction.Continue`.  The first component collects the alert messages
shown by this call. -/
def errorHandlerOnError (_message : String) (count : Nat) :
    List String × ErrorAction :=
  (if 5 ≤ count then
    ["L Language Server encountered " ++ toString count ++
      " errors. Check the \"L Language\" output channel for details."]
  else [], ErrorAction.Continue)

/-- The `closed` callback (lines 259-262): after logging it always returns
`CloseAction.Restart`. -/
def errorHandlerOnClosed : CloseAction :=
  CloseAction.Restart

/-- The two event kinds the escalation policy reacts to: a communication
fault and a transition into `Running`. -/
inductive SessionEvent
  | fault
  | runningTransition
deriving DecidableEq, Repr

/-- Modelled from the spec: the consecutive-fault counter is maintained by
the client library, outside this repository's sources; per the spec it is
incremented on every fault and reset to zero on every transition into
`Running`. -/
def faultCounter (events : List SessionEvent) : Nat :=
  events.foldl
    (fun c e =>
      match e with
      | SessionEvent.fault => c + 1
      | SessionEvent.runningTransition => 0)
    0

/-- Total number of user-visible alerts over an event run: each fault invokes
`errorHandlerOnError` with the current counter value, each `Running`
transition resets the counter. -/
def runAlerts (events : List SessionEvent) : Nat :=
  (events.foldl
    (fun (p : Nat × Nat) e =>
      match e with
      | SessionEvent.fault =>
        (p.1 + 1, p.2 + (errorHandlerOnError "fault" (p.1 + 1)).1.length)
      | SessionEvent.runningTransition => (0, p.2))
    (0, 0)).2

/- ### Configuration changes (handleConfigurationChange, lines 397-418) -/

/-- Byte-wise string prefix test over the underlying character lists. -/
def strStartsWith (s p : String) : Bool :=
  p.data.isPrefixOf s.data

/-- `event.affectsConfiguration(query)` for an event describing a set of
changed configuration keys: true when some changed key equals the query, lies
underneath it, or lies above it (changing a whole section affects each of its
keys). -/
def affectsConfiguration (query : String) (changedKeys : List String) : Bool :=
  changedKeys.any fun k =>
    k == query || strStartsWith k (query ++ ".") || strStartsWith query (k ++ ".")

/-- `handleConfigurationChange` (lines 397-418), with the fresh timer id the
host would allocate for the `setTimeout` call passed in: irrelevant events do
nothing; a change affecting `l-language-server.trace.server` only logs; any
other change to the section clears a pending timer and arms a fresh
one-second timer. -/
def handleConfigurationChange (st : ExtensionState) (changedKeys : List String)
    (freshId : Nat) : ExtensionState × List Effect :=
  if affectsConfiguration "l-language-server" changedKeys then
    if affectsConfiguration "l-language-server.trace.server" changedKeys then
      (st, [Effect.logLine "[INFO] Trace configuration changed, no restart needed"])
    else
      ({ st with configChangeTimer := some freshId },
        Effect.logLine "[INFO] Configuration changed, scheduling server restart" ::
          (match st.configChangeTimer with
            | some id => [Effect.clearTimeout id]
            | none => []) ++
          [Effect.setTimeout freshId 1000])
  else (st, [])

/-- Whether a configuration-change event takes the scheduling branch of
`handleConfigurationChange`: it affects the section and does not affect the
trace key. -/
def schedulesRestart (changedKeys : List String) : Bool :=
  affectsConfiguration "l-language-server" changedKeys &&
    !affectsConfiguration "l-language-server.trace.server" changedKeys

/-- The specification's scheduling condition read literally: the change
affects the extension's section *excluding* the trace key, i.e. some changed
key belongs to the section and is not the trace key.  Declared only to
compare the spec's wording with the code's branch. -/
def changesNonTraceSectionKey (changedKeys : List String) : Bool :=
  changedKeys.any fun k =>
    affectsConfiguration "l-language-server" [k] &&
      !affectsConfiguration "l-language-server.trace.server" [k]

/-- Sequential processing of a burst of configuration-change events, the
host allocating consecutive timer ids starting at `startId`. -/
def processConfigEvents (st : ExtensionState) (events : List (List String))
    (startId : Nat) : ExtensionState × List Effect :=
  match events with
  | [] => (st, [])
  | e :: rest =>
    let p := handleConfigurationChange st e startId
    let q := processConfigEvents p.1 rest (startId + 1)
    (q.1, p.2 ++ q.2)

/- ### Restart (restartServer, lines 423-522) -/

/-- Outcomes of the two awaited transition waits inside `restartServer`:
what the wait entered while `Starting` resolves to (lines 459-487), and what
the post-`start()` wait observes (lines 494-511). -/
structure RestartEnv where
  startingResolvesTo : LspState
  startResolvesTo : LspState
deriving DecidableEq, Repr

/-- `restartServer` (lines 423-522) under the sequential semantics, returning
the updated module state and the effect sequence performed: the disposing and
uninitialised-client guards log and return; otherwise the routine stops a
`Running` session, waits out a `Starting` one (stopping it when the wait
resolves to `Running`), then calls `start()` — on the same client handle, so
with the command resolved at activation — and waits for the outcome.
Exceptions from `stop`/`start` (the catch at line 514) are elided: the
oracle describes resolved outcomes. -/
def restartServer (st : ExtensionState) (env : RestartEnv) :
    ExtensionState × List Effect :=
  if st.isDisposing then
    (st, [Effect.logLine "[WARN] Extension is being disposed, skipping restart"])
  else
    match st.client with
    | none =>
      (st, [Effect.logLine "[WARN] Cannot restart server: client not initialized"])
    | some c =>
      ({ st with client := some { c with state := env.startResolvesTo } },
        Effect.logLine ("[INFO] Restarting L Language Server (current state: " ++
            stateName c.state ++ ")") ::
          (match c.state with
            | LspState.Running =>
              [Effect.logLine "[INFO] Stopping current server instance...",
                Effect.stopClient,
                Effect.logLine "[INFO] Server stopped successfully"]
            | LspState.Starting =>
              Effect.logLine
                  "[WARN] Server is currently starting, waiting for it to complete..." ::
                (if env.startingResolvesTo = LspState.Running then
                  [Effect.stopClient,
                    Effect.logLine "[INFO] Server stopped successfully"]
                else
                  [Effect.logLine
                    "[WARN] Server failed to start, proceeding with restart attempt"])
            | LspState.Stopped => []) ++
          (Effect.logLine "[INFO] Starting new server instance..." ::
            Effect.startClient c.command ::
            (if env.startResolvesTo = LspState.Running then
              [Effect.logLine "[INFO] L Language Server restarted successfully"]
            else
              [Effect.logLine "[ERROR] L Language Server failed to restart"])))

/-- The process-level operations among the effects: `stop()` and `start()`
calls on the client. -/
def isProcessOp : Effect → Bool
  | Effect.stopClient => true
  | Effect.startClient _ => true
  | _ => false

/-- The command carried by a `startClient` effect, if any. -/
def startedCommandOf : Effect → Option String
  | Effect.startClient cmd => some cmd
  | _ => none

/-- The stop/start sequence a `restartServer` invocation performs, with the
logging stripped.  Empty exactly when the invocation was dropped by one of
its two guards. -/
def restartPlan (st : ExtensionState) (env : RestartEnv) : List Effect :=
  (restartServer st env).2.filter isProcessOp

/-- The timer callback armed at line 413: when the timer with this id is
still the pending one (`clearTimeout` kills a replaced timer's callback, and
the callback nulls the handle), it runs `restartServer` and clears the
handle; otherwise nothing happens. -/
def timerCallback (st : ExtensionState) (id : Nat) (env : RestartEnv) :
    ExtensionState × List Effect :=
  match st.configChangeTimer with
  | some cur =>
    if cur = id then
      let p := restartServer st env
      ({ p.1 with configChangeTimer := none }, p.2)
    else (st, [])
  | none => (st, [])

/- ### Deactivation (deactivate, lines 330-364) -/

/-- `deactivate` (lines 330-364): sets the disposing flag, clears a pending
debounce timer, and — when a client exists — returns the thenable of
`client.stop()` (the `some ()` case; the then-handlers only log).  The third
component is the function's return value, `none` modelling `undefined`. -/
def deactivate (st : ExtensionState) : ExtensionState × List Effect × Option Unit :=
  let st1 := { st with isDisposing := true }
  let cleared :=
    match st1.configChangeTimer with
    | some id =>
      ({ st1 with configChangeTimer := none },
        [Effect.clearTimeout id,
          Effect.logLine "[INFO] Cleared pending configuration change timer"])
    | none => (st1, ([] : List Effect))
  match cleared.1.client with
  | none =>
    (cleared.1, cleared.2 ++ [Effect.logLine "[INFO] No client to stop"], none)
  | some _ =>
    (cleared.1,
      cleared.2 ++
        [Effect.logLine "[INFO] Stopping L language server...", Effect.stopClient],
      some ())

/- ### Late events after deactivation -/

/-- The asynchronous callbacks the deactivation claim quantifies over: a
debounce-timer callback firing and a late state-transition event. -/
inductive LateEvent
  | timerFires (id : Nat) (env : RestartEnv)
  | stateChange (newState : LspState)
deriving Repr

/-- Dispatch of one late event to the code's handlers. -/
def handleLateEvent (st : ExtensionState) : LateEvent → ExtensionState × List Effect
  | LateEvent.timerFires id env => timerCallback st id env
  | LateEvent.stateChange s =>
    (stateChangeSubscriber st { oldState := LspState.Running, newState := s }, [])

/-- Sequential processing of a list of late events, accumulating effects. -/
def processLateEvents (st : ExtensionState) (events : List LateEvent) :
    ExtensionState × List Effect :=
  events.foldl
    (fun acc e =>
      let p := handleLateEvent acc.1 e
      (p.1, acc.2 ++ p.2))
    (st, [])

/- ### Interleaving of two concurrent restart invocations -/

/-- An effect tagged with which of two concurrent `restartServer`
invocations performed it. -/
inductive TaggedEffect
  | fromFst (e : Effect)
  | fromSnd (e : Effect)
deriving DecidableEq, Repr

/-- Recursion worker for `interleavings`, structurally recursive on a fuel
bound so that it evaluates inside the kernel; the fuel passed by
`interleavings` always suffices. -/
def interleavingsAux : Nat → List Effect → List Effect → List (List TaggedEffect)
  | _, [], [] => [[]]
  | 0, _, _ => []
  | n + 1, [], b :: bs =>
    (interleavingsAux n [] bs).map fun t => TaggedEffect.fromSnd b :: t
  | n + 1, a :: as, [] =>
    (interleavingsAux n as []).map fun t => TaggedEffect.fromFst a :: t
  | n + 1, a :: as, b :: bs =>
    ((interleavingsAux n as (b :: bs)).map fun t => TaggedEffect.fromFst a :: t) ++
      ((interleavingsAux n (a :: as) bs).map fun t => TaggedEffect.fromSnd b :: t)

/-- All interleavings of two effect sequences.  Each `await` inside
`restartServer` is a suspension point of the single-threaded event loop, so
a concurrent invocation's operations may be scheduled between any two
operations of the other; within one invocation the order is fixed. -/
def interleavings (xs ys : List Effect) : List (List TaggedEffect) :=
  interleavingsAux (xs.length + ys.length) xs ys

/-- Which invocation an interleaved step belongs to. -/
def isFromFst : TaggedEffect → Bool
  | TaggedEffect.fromFst _ => true
  | TaggedEffect.fromSnd _ => false

/-- A trace is sequential when one invocation runs entirely before the
other. -/
def sequentialTrace (t : List TaggedEffect) : Bool :=
  ((t.dropWhile isFromFst).all fun x => !isFromFst x) ||
    ((t.dropWhile fun x => !isFromFst x).all isFromFst)

/-- Two restart executions overlap when their trace is not sequential. -/
def overlapTraces (t : List TaggedEffect) : Bool :=
  !sequentialTrace t

/- ### Concrete fixtures used by counterexamples and witnesses -/

/-- A restart environment in which every awaited transition resolves to
`Running`. -/
def envOk : RestartEnv :=
  { startingResolvesTo := LspState.Running, startResolvesTo := LspState.Running }

/-- A module state with a running client whose activation-time command is
`/old/l-language-server`. -/
def stRunningOld : ExtensionState :=
  { client := some { command := "/old/l-language-server", state := LspState.Running }
    statusBarItem := renderStatusBar LspState.Running
    configChangeTimer := none
    isDisposing := false }

/-- A module state with a running client and no pending timer, command
`srv`. -/
def stRunningSrv : ExtensionState :=
  { client := some { command := "srv", state := LspState.Running }
    statusBarItem := renderStatusBar LspState.Running
    configChangeTimer := none
    isDisposing := false }

/-- A module state in which `activate` never constructed the client. -/
def stNoClient : ExtensionState :=
  { client := none
    statusBarItem := renderStatusBar LspState.Starting
    configChangeTimer := some 3
    isDisposing := false }

/-- The overlapping schedule of two concurrent restart invocations: both
stop, then both start. -/
def overlapScheduleC1 : List TaggedEffect :=
  [TaggedEffect.fromFst Effect.stopClient,
    TaggedEffect.fromSnd Effect.stopClient,
    TaggedEffect.fromFst (Effect.startClient "srv"),
    TaggedEffect.fromSnd (Effect.startClient "srv")]

/-- The mixed configuration-change event of the C9 counterexample: one event
reporting both the trace key and the server-path key changed. -/
def mixedConfigEvent : List String :=
  ["l-language-server.trace.server", "l-language-server.serverPath"]


/-- Whether an effect arms a timer. -/
def isSetTimeout : Effect → Bool
  | Effect.setTimeout _ _ => true
  | _ => false

/-- A configuration burst of three restart-relevant events. -/
def cfgBurst : List (List String) :=
  [["l-language-server.serverPath"],
    ["l-language-server.maxNumberOfProblems"],
    ["l-language-server.serverPath"]]

/-- An existence oracle under which no candidate path exists. -/
def fsNoneExists : String → Except String Bool :=
  fun _ => Except.ok false

/- ### Helper lemmas -/

/-- When every existence check throws, the search loop finds nothing. -/
theorem findFirstExisting_all_error (err : String) (ps : List String) :
    findFirstExisting (fun _ => Except.error err) ps = none := by
  induction ps with
  | nil => rfl
  | cons p ps ih => simp [findFirstExisting, ih]

/-- A scheduling event rewrites the pending timer to the fresh id and changes
nothing else. -/
theorem handleConfigurationChange_scheduling (st : ExtensionState)
    (e : List String) (fid : Nat) (h : schedulesRestart e = true) :
    (handleConfigurationChange st e fid).1
      = { st with configChangeTimer := some fid } := by
  have h1 : affectsConfiguration "l-language-server" e = true := by
    unfold schedulesRestart at h
    exact (Bool.and_eq_true _ _).mp h |>.1
  have h2 : affectsConfiguration "l-language-server.trace.server" e = false := by
    unfold schedulesRestart at h
    have := (Bool.and_eq_true _ _).mp h |>.2
    simpa using this
  simp [handleConfigurationChange, h1, h2]

/-- A scheduling event arriving while a timer is pending cancels that timer
and arms the fresh one. -/
theorem handleConfigurationChange_cancels (st : ExtensionState)
    (e : List String) (fid id0 : Nat) (h : schedulesRestart e = true)
    (ht : st.configChangeTimer = some id0) :
    (handleConfigurationChange st e fid).2
      = [Effect.logLine "[INFO] Configuration changed, scheduling server restart",
          Effect.clearTimeout id0, Effect.setTimeout fid 1000] := by
  have h1 : affectsConfiguration "l-language-server" e = true := by
    unfold schedulesRestart at h
    exact (Bool.and_eq_true _ _).mp h |>.1
  have h2 : affectsConfiguration "l-language-server.trace.server" e = false := by
    unfold schedulesRestart at h
    have := (Bool.and_eq_true _ _).mp h |>.2
    simpa using this
  simp [handleConfigurationChange, h1, h2, ht]

/-- After a non-empty burst of scheduling events the pending timer is the one
armed by the last event. -/
theorem processConfigEvents_timer (events : List (List String)) :
    ∀ (st : ExtensionState) (startId : Nat), events ≠ [] →
      (∀ e ∈ events, schedulesRestart e = true) →
      (processConfigEvents st events startId).1.configChangeTimer
        = some (startId + (events.length - 1)) := by
  induction events with
  | nil => intro st sid h _; exact absurd rfl h
  | cons e rest ih =>
    intro st sid _ hall
    have hstep := handleConfigurationChange_scheduling st e sid
      (hall e (List.mem_cons_self e rest))
    have heq : (processConfigEvents st (e :: rest) sid).1
        = (processConfigEvents (handleConfigurationChange st e sid).1 rest (sid + 1)).1 :=
      rfl
    by_cases hr : rest = []
    · subst hr
      rw [heq, hstep]
      rfl
    · have hlen : rest.length ≠ 0 := fun h0 => hr (List.length_eq_zero.mp h0)
      have hrec := ih (handleConfigurationChange st e sid).1 (sid + 1) hr
        (fun x hx => hall x (List.mem_cons_of_mem _ hx))
      rw [heq, hrec]
      congr 1
      simp only [List.length_cons]
      omega

/-- After deactivation the disposing flag is set and no timer is pending. -/
theorem deactivate_disposing (st : ExtensionState) :
    (deactivate st).1.isDisposing = true ∧
      (deactivate st).1.configChangeTimer = none := by
  cases ht : st.configChangeTimer <;> cases hc : st.client <;>
    simp [deactivate, ht, hc]

/-- Once the disposing flag is set and no timer is pending, every late event
is a complete no-op. -/
theorem lateEvent_noop (s : ExtensionState) (hd : s.isDisposing = true)
    (ht : s.configChangeTimer = none) (e : LateEvent) :
    handleLateEvent s e = (s, []) := by
  cases e with
  | timerFires id env => simp [handleLateEvent, timerCallback, ht]
  | stateChange ns =>
    simp [handleLateEvent, stateChangeSubscriber, updateStatusBar, hd]

/-- Folding any late-event list over a disposed, timer-free state changes
nothing and emits nothing. -/
theorem processLateEvents_fold (s : ExtensionState) (hd : s.isDisposing = true)
    (ht : s.configChangeTimer = none) (events : List LateEvent) :
    ∀ acc : List Effect,
      events.foldl
        (fun a e =>
          let p := handleLateEvent a.1 e
          (p.1, a.2 ++ p.2))
        (s, acc) = (s, acc) := by
  induction events with
  | nil => intro acc; rfl
  | cons e rest ih =>
    intro acc
    simp only [List.foldl_cons, lateEvent_noop s hd ht e]
    simpa using ih acc

/- ### Claim theorems -/

/-- C1, counterexample.  The claim asserts a restart-in-progress guard under
which concurrent restart requests are dropped and no two restart sequences
overlap.  The code has no such guard: two `restartServer` invocations that
both observe a `Running` client each produce the full stop/start plan, and
the event loop admits the schedule in which both stop before either starts —
two complete, overlapping restart executions, neither dropped. -/
theorem c1_counterexample_overlapping_restarts :
    restartPlan stRunningSrv envOk = [Effect.stopClient, Effect.startClient "srv"] ∧
    overlapScheduleC1 ∈
      interleavings (restartPlan stRunningSrv envOk) (restartPlan stRunningSrv envOk) ∧
    overlapTraces overlapScheduleC1 = true := by
  decide

/-- C1, amended: the code has no restart-in-progress guard.  A
`restartServer` invocation performs no stop/start operation exactly when the
disposing flag is set or the client was never constructed; in every other
situation it executes its full sequence, and two concurrent invocations that
both observe a `Running` client may interleave their stop/start operations,
so restart sequences can overlap. -/
theorem c1_amended_no_restart_guard :
    (∀ (st : ExtensionState) (env : RestartEnv),
      restartPlan st env = [] ↔ (st.isDisposing = true ∨ st.client = none)) ∧
    overlapScheduleC1 ∈
      interleavings (restartPlan stRunningSrv envOk) (restartPlan stRunningSrv envOk) ∧
    overlapTraces overlapScheduleC1 = true := by
  refine ⟨?_, by decide, by decide⟩
  intro st env
  cases hd : st.isDisposing with
  | true => simp [restartPlan, restartServer, hd, isProcessOp]
  | false =>
    cases hc : st.client with
    | none => simp [restartPlan, restartServer, hd, hc, isProcessOp]
    | some c =>
      simp only [restartPlan, restartServer, hd, hc]
      rcases env with ⟨sr, pr⟩
      cases c.state <;> cases sr <;> cases pr <;>
        simp [List.filter, isProcessOp]

/-- C2, counterexample.  The claim asserts that the restart sequence
re-resolves the server command before `start()`.  It does not: with a client
constructed at activation for `/old/l-language-server` and a configuration
that now resolves to `/new/l-language-server`, the restart starts exactly
`/old/l-language-server`. -/
theorem c2_counterexample_stale_command :
    (restartServer stRunningOld envOk).2.filterMap startedCommandOf
        = ["/old/l-language-server"] ∧
    resolveServerCommand id "/new/l-language-server" none fsNoneExists "d" false
        = "/new/l-language-server" ∧
    "/old/l-language-server" ≠ "/new/l-language-server" := by
  decide

/-- C2, amended: the restart sequence never re-resolves the command — it
calls `start()` on the client constructed at activation, so the one `start`
it performs launches exactly the activation-time command, whatever the
configuration now says. -/
theorem c2_amended_restart_uses_activation_command (st : ExtensionState)
    (env : RestartEnv) (c : ClientHandle) (hd : st.isDisposing = false)
    (hc : st.client = some c) :
    (restartServer st env).2.filterMap startedCommandOf = [c.command] := by
  simp only [restartServer, hd, hc]
  rcases env with ⟨sr, pr⟩
  cases c.state <;> cases sr <;> cases pr <;>
    simp [List.filterMap, startedCommandOf]

/-- C2, witness for the amended theorem at a concrete state. -/
theorem c2_amended_restart_uses_activation_command_witness :
    (restartServer stRunningOld envOk).2.filterMap startedCommandOf
      = ["/old/l-language-server"] :=
  c2_amended_restart_uses_activation_command stRunningOld envOk
    { command := "/old/l-language-server", state := LspState.Running } rfl rfl

/-- C3, counterexample.  The claim asserts the alert fires exactly once per
fault run, on the fault reaching the threshold 5, and that a 6th consecutive
fault fires no additional alert.  The handler alerts on every call with
`count >= 5`: a run of 6 consecutive faults fires 2 alerts, and the call for
the 6th fault itself shows one alert. -/
theorem c3_counterexample_repeated_alert :
    runAlerts (List.replicate 6 SessionEvent.fault) = 2 ∧
    (errorHandlerOnError "protocol fault" 6).1.length = 1 := by
  decide

/-- C3, amended: the handler shows one alert on every fault whose
consecutive count is at least 5 (so a 6th consecutive fault alerts again)
and none below the threshold; the consecutive-fault counter is reset to 0 by
every transition into `Running`. -/
theorem c3_amended_alert_at_or_above_threshold :
    (∀ (message : String) (count : Nat),
      (errorHandlerOnError message count).1.length = if 5 ≤ count then 1 else 0) ∧
    (∀ events : List SessionEvent,
      faultCounter (events ++ [SessionEvent.runningTransition]) = 0) := by
  constructor
  · intro m c
    by_cases h : 5 ≤ c <;> simp [errorHandlerOnError, h]
  · intro es
    simp [faultCounter, List.foldl_append]

/-- C8: the `error` callback always returns `Continue` — the connection is
never torn down because of a fault — and the `closed` callback always
returns `Restart`. -/
theorem c8_error_policy_actions :
    (∀ (message : String) (count : Nat),
      (errorHandlerOnError message count).2 = ErrorAction.Continue) ∧
    errorHandlerOnClosed = CloseAction.Restart :=
  ⟨fun _ _ => rfl, rfl⟩

/-- C4, counterexample.  The claim's priority order says a set `SERVER_PATH`
wins over candidate-path lookup.  JavaScript truthiness makes the code treat
`SERVER_PATH` set to the empty string as unset: with no configuration path,
`SERVER_PATH=""` and the first candidate existing, the code resolves the
candidate while the documented order resolves the (empty) variable. -/
theorem c4_counterexample_empty_env_var :
    selectServerCommand "" (some "")
        (fun p => Except.ok (p == "d/../../target/debug/l-language-server")) "d" false
      = "d/../../target/debug/l-language-server" ∧
    specOrderServerCommand "" (some "")
        (fun p => Except.ok (p == "d/../../target/debug/l-language-server")) "d" false
      = "" ∧
    ("" : String) ≠ "d/../../target/debug/l-language-server" := by
  decide

/-- C4, amended: the locator resolves in priority order with JavaScript
truthiness — a configuration path non-empty after trimming wins; otherwise a
`SERVER_PATH` set to a non-empty string wins (one set to the empty string is
ignored); otherwise the first existing candidate, else the fallback name —
and an existence oracle that always throws still yields the fallback,
resolution never throwing. -/
theorem c4_amended_locator_precedence (custom : String) (env : Option String)
    (fsExists : String → Except String Bool) (dirname : String) (isWin32 : Bool)
    (v err : String) :
    (jsTrim custom ≠ "" →
      selectServerCommand custom env fsExists dirname isWin32 = custom) ∧
    (jsTrim custom = "" → env = some v → v ≠ "" →
      selectServerCommand custom env fsExists dirname isWin32 = v) ∧
    (jsTrim custom = "" → envTruthy env = false →
      selectServerCommand custom env fsExists dirname isWin32
        = (findFirstExisting fsExists (possiblePaths dirname isWin32)).getD
            "l-language-server") ∧
    (jsTrim custom = "" → envTruthy env = false →
      selectServerCommand custom env (fun _ => Except.error err) dirname isWin32
        = "l-language-server") := by
  refine ⟨?_, ?_, ?_, ?_⟩
  · intro h
    have hne : custom ≠ "" := by
      intro he
      apply h
      rw [he]
      rfl
    simp [selectServerCommand, hne, h]
  · intro h hv hvne
    subst hv
    have hno : ¬(custom ≠ "" ∧ jsTrim custom ≠ "") := fun hcontra => hcontra.2 h
    simp [selectServerCommand, hno, envTruthy, hvne]
  · intro h henv
    have hno : ¬(custom ≠ "" ∧ jsTrim custom ≠ "") := fun hcontra => hcontra.2 h
    simp [selectServerCommand, hno, henv]
  · intro h henv
    have hno : ¬(custom ≠ "" ∧ jsTrim custom ≠ "") := fun hcontra => hcontra.2 h
    simp [selectServerCommand, hno, henv, findFirstExisting_all_error]

/-- C4, witness for the amended theorem: each precedence level at concrete
inputs. -/
theorem c4_amended_locator_precedence_witness :
    selectServerCommand "/cfg/server" (some "envpath") fsNoneExists "d" false
        = "/cfg/server" ∧
    selectServerCommand "" (some "envpath") fsNoneExists "d" false = "envpath" ∧
    selectServerCommand "" none fsNoneExists "d" false
        = (findFirstExisting fsNoneExists (possiblePaths "d" false)).getD
            "l-language-server" ∧
    selectServerCommand "" none (fun _ => Except.error "boom") "d" false
        = "l-language-server" :=
  ⟨(c4_amended_locator_precedence "/cfg/server" (some "envpath") fsNoneExists
      "d" false "envpath" "boom").1 (by decide),
    (c4_amended_locator_precedence "" (some "envpath") fsNoneExists
      "d" false "envpath" "boom").2.1 rfl rfl (by decide),
    (c4_amended_locator_precedence "" none fsNoneExists
      "d" false "envpath" "boom").2.2.1 rfl rfl,
    (c4_amended_locator_precedence "" none fsNoneExists
      "d" false "envpath" "boom").2.2.2 rfl rfl⟩

/-- C5: at most one debounce timer is pending (the timer slot is rewritten,
cancelling its predecessor, by every restart-relevant event), and a burst of
restart-relevant configuration events yields exactly one restart, triggered
by the last event's timer: after the burst the pending timer is the last
event's, every earlier event's timer fires as a no-op, and the last timer's
callback performs exactly one `restartServer` run and clears the slot. -/
theorem c5_debounce_coalescing (st : ExtensionState) (events : List (List String))
    (startId : Nat) (env : RestartEnv) (i : Nat) (e0 : List String) (id0 : Nat)
    (st0 : ExtensionState)
    (hall : ∀ e ∈ events, schedulesRestart e = true)
    (hi : i + 1 < events.length)
    (he0 : schedulesRestart e0 = true)
    (ht0 : st0.configChangeTimer = some id0) :
    (processConfigEvents st events startId).1.configChangeTimer
        = some (startId + (events.length - 1)) ∧
    timerCallback (processConfigEvents st events startId).1 (startId + i) env
        = ((processConfigEvents st events startId).1, []) ∧
    (timerCallback (processConfigEvents st events startId).1
        (startId + (events.length - 1)) env).2
      = (restartServer (processConfigEvents st events startId).1 env).2 ∧
    (timerCallback (processConfigEvents st events startId).1
        (startId + (events.length - 1)) env).1.configChangeTimer = none ∧
    (handleConfigurationChange st0 e0 startId).2
      = [Effect.logLine "[INFO] Configuration changed, scheduling server restart",
          Effect.clearTimeout id0, Effect.setTimeout startId 1000] ∧
    (handleConfigurationChange st0 e0 startId).1.configChangeTimer = some startId := by
  have hne : events ≠ [] := by
    intro h
    subst h
    simp at hi
  have ha := processConfigEvents_timer events st startId hne hall
  have hne2 : startId + (events.length - 1) ≠ startId + i := by omega
  refine ⟨ha, ?_, ?_, ?_, ?_, ?_⟩
  · simp [timerCallback, ha, hne2]
  · simp [timerCallback, ha]
  · simp [timerCallback, ha]
  · exact handleConfigurationChange_cancels st0 e0 startId id0 he0 ht0
  · rw [handleConfigurationChange_scheduling st0 e0 startId he0]

/-- C5, witness for the coalescing theorem: a three-event burst. -/
theorem c5_debounce_coalescing_witness :
    (processConfigEvents stRunningSrv cfgBurst 0).1.configChangeTimer
        = some (0 + (cfgBurst.length - 1)) ∧
    timerCallback (processConfigEvents stRunningSrv cfgBurst 0).1 (0 + 0) envOk
        = ((processConfigEvents stRunningSrv cfgBurst 0).1, []) ∧
    (timerCallback (processConfigEvents stRunningSrv cfgBurst 0).1
        (0 + (cfgBurst.length - 1)) envOk).2
      = (restartServer (processConfigEvents stRunningSrv cfgBurst 0).1 envOk).2 ∧
    (timerCallback (processConfigEvents stRunningSrv cfgBurst 0).1
        (0 + (cfgBurst.length - 1)) envOk).1.configChangeTimer = none ∧
    (handleConfigurationChange stNoClient ["l-language-server.serverPath"] 0).2
      = [Effect.logLine "[INFO] Configuration changed, scheduling server restart",
          Effect.clearTimeout 3, Effect.setTimeout 0 1000] ∧
    (handleConfigurationChange stNoClient
        ["l-language-server.serverPath"] 0).1.configChangeTimer = some 0 :=
  c5_debounce_coalescing stRunningSrv cfgBurst 0 envOk 0
    ["l-language-server.serverPath"] 3 stNoClient (by decide) (by decide)
    (by decide) rfl

/-- C6: deactivation is terminal — once `deactivate` has run (disposing flag
set, pending timer cleared), processing any sequence of late timer callbacks
and state-transition events leaves the module state (in particular the
status bar) unchanged and performs no effect at all, hence no restart. -/
theorem c6_deactivation_terminal (st : ExtensionState) (events : List LateEvent) :
    processLateEvents (deactivate st).1 events = ((deactivate st).1, []) := by
  have h := deactivate_disposing st
  exact processLateEvents_fold (deactivate st).1 h.1 h.2 events []

/-- C7, counterexample.  The claim asserts transition events carry their
generation and the status-bar subscriber discards mismatched ones.  The
code's events carry no generation and the subscriber filters nothing: with
current generation 2, a stale generation-1 `Stopped` event rewrites the
status bar from the running display to the stopped display. -/
theorem c7_counterexample_stale_generation_updates_ui :
    (1 : Nat) ≠ 2 ∧
    (deliverGenTagged stRunningSrv 2
        { generation := 1,
          event := { oldState := LspState.Running,
                     newState := LspState.Stopped } }).statusBarItem
      ≠ stRunningSrv.statusBarItem ∧
    (deliverGenTagged stRunningSrv 2
        { generation := 1,
          event := { oldState := LspState.Running,
                     newState := LspState.Stopped } }).statusBarItem
      = renderStatusBar LspState.Stopped := by
  decide

/-- C7, amended: the code performs no generation filtering — whenever the
disposing flag is clear, every delivered transition event rewrites the
status bar according to its new state, whatever generation it belongs to and
whatever the current generation is. -/
theorem c7_amended_no_generation_filtering (st : ExtensionState)
    (currentGen : Nat) (e : GenTaggedEvent) (h : st.isDisposing = false) :
    deliverGenTagged st currentGen e
      = { st with statusBarItem := renderStatusBar e.event.newState } := by
  simp [deliverGenTagged, stateChangeSubscriber, updateStatusBar, h]

/-- C7, witness for the amended theorem at a concrete stale event. -/
theorem c7_amended_no_generation_filtering_witness :
    deliverGenTagged stRunningSrv 2
        { generation := 1,
          event := { oldState := LspState.Running, newState := LspState.Stopped } }
      = { stRunningSrv with statusBarItem := renderStatusBar LspState.Stopped } :=
  c7_amended_no_generation_filtering stRunningSrv 2
    { generation := 1,
      event := { oldState := LspState.Running, newState := LspState.Stopped } } rfl

/-- C9, counterexample.  The claim says a change to any non-trace key of the
section schedules the debounced restart.  A single event reporting both the
trace key and the server-path key changed does affect the section excluding
the trace key, yet the handler takes the trace early-return and schedules
nothing. -/
theorem c9_counterexample_mixed_change :
    changesNonTraceSectionKey mixedConfigEvent = true ∧
    (handleConfigurationChange stRunningSrv mixedConfigEvent 7).1.configChangeTimer
      = none ∧
    (handleConfigurationChange stRunningSrv mixedConfigEvent 7).2.all
      (fun e => !isSetTimeout e) = true := by
  decide

/-- C9, amended: a restart is scheduled if and only if the event affects the
`l-language-server` section and does not affect
`l-language-server.trace.server`; in particular a trace-only change never
schedules one, a non-trace section change does, and a mixed change touching
the trace key alongside other section keys schedules none. -/
theorem c9_amended_trace_filter (st : ExtensionState) (changedKeys : List String)
    (freshId : Nat) :
    (handleConfigurationChange st changedKeys freshId).2.any isSetTimeout
      = (affectsConfiguration "l-language-server" changedKeys &&
          !affectsConfiguration "l-language-server.trace.server" changedKeys) := by
  cases h1 : affectsConfiguration "l-language-server" changedKeys with
  | false => simp [handleConfigurationChange, h1]
  | true =>
    cases h2 : affectsConfiguration "l-language-server.trace.server" changedKeys with
    | false =>
      cases ht : st.configChangeTimer <;>
        simp [handleConfigurationChange, h1, h2, ht, isSetTimeout]
    | true => simp [handleConfigurationChange, h1, h2, isSetTimeout]

/-- C10: with the client never constructed, `deactivate` returns `undefined`
having attempted no stop, and `restartServer` leaves the state untouched
performing exactly one warning log line — no stop, no start. -/
theorem c10_uninitialized_client_noop (st : ExtensionState) (env : RestartEnv)
    (h : st.client = none) :
    (deactivate st).2.2 = none ∧
    Effect.stopClient ∉ (deactivate st).2.1 ∧
    (restartServer st env).1 = st ∧
    (restartServer st env).2
      = [Effect.logLine
          (if st.isDisposing then "[WARN] Extension is being disposed, skipping restart"
            else "[WARN] Cannot restart server: client not initialized")] := by
  cases hd : st.isDisposing <;> cases ht : st.configChangeTimer <;>
    simp [deactivate, restartServer, h, hd, ht]

/-- C10, witness at a concrete uninitialised state. -/
theorem c10_uninitialized_client_noop_witness :
    (deactivate stNoClient).2.2 = none ∧
    Effect.stopClient ∉ (deactivate stNoClient).2.1 ∧
    (restartServer stNoClient envOk).1 = stNoClient ∧
    (restartServer stNoClient envOk).2
      = [Effect.logLine
          (if stNoClient.isDisposing then
            "[WARN] Extension is being disposed, skipping restart"
          else "[WARN] Cannot restart server: client not initialized")] :=
  c10_uninitialized_client_noop stNoClient envOk rfl
